import Mathlib

/-!
Verification development for the Kenshi-Shop repository (src/app.py and
src/bot_worker.py): a shallow embedding of the order/claim/approval state
machine, the delivery packager, the claim registry and the catalog slugging,
together with theorems settling the spec claims.

Python dicts are embedded as association lists (`List (String × _)`), which
preserve both keyed lookup (`List.lookup`) and insertion order (needed for
`next(...)`-style scans and Mongo's `find_one`).  Python strings are Lean
`String`s; truthiness of optional fields is `Option`; statuses are the same
free-form strings the code uses.  External collaborators (Flask, werkzeug,
the Telegram transport, the OS clock and `uuid4`) are parameters: fresh ids,
tokens and random slug suffixes are explicit arguments, and the outcome of a
Telegram send or of ZIP-file creation is a boolean oracle argument, so that
both the success and the failure path of every `try/except` are embedded.
-/

namespace KenshiShop

/-! ### Python character primitives -/

/-- The whitespace characters stripped by Python's `str.strip()` and split
on by `str.split()`, by code point: space, tab, LF, CR, VT, FF (the ASCII
ones; product names never reach the non-ASCII ones in any claim). -/
def pyIsSpace (c : Char) : Bool :=
  c.toNat = 32 || c.toNat = 9 || c.toNat = 10 || c.toNat = 13 ||
    c.toNat = 11 || c.toNat = 12

/-- ASCII lowercasing, as performed by `str.lower()` on the characters the
claims touch. -/
def pyLowerChar (c : Char) : Char :=
  if 65 ≤ c.toNat ∧ c.toNat ≤ 90 then Char.ofNat (c.toNat + 32) else c

/-- ASCII uppercasing, as performed by `str.upper()` on the characters the
claims touch. -/
def pyUpperChar (c : Char) : Char :=
  if 97 ≤ c.toNat ∧ c.toNat ≤ 122 then Char.ofNat (c.toNat - 32) else c

/-- `[a-z0-9]`. -/
def isAlnumLower (c : Char) : Bool :=
  (97 ≤ c.toNat && c.toNat ≤ 122) || (48 ≤ c.toNat && c.toNat ≤ 57)

/-- The character class `[a-z0-9-]` of `create_slug`'s regexes. -/
def isSlugChar (c : Char) : Bool :=
  isAlnumLower c || c == '-'

/-! ### Python string primitives -/

/-- Drop the trailing run of characters satisfying `p`. -/
def dropEndWhile (p : Char → Bool) (l : List Char) : List Char :=
  (l.reverse.dropWhile p).reverse

/-- Python's `str.strip(chars)`: drop the leading and trailing runs of
characters satisfying `p`. -/
def pyStrip (p : Char → Bool) (l : List Char) : List Char :=
  dropEndWhile p (l.dropWhile p)

/-- Collapse every run of `'-'` to a single `'-'`
(`re.sub(r'-+', '-', s)` on a string whose dashes are exactly `'-'`). -/
def collapseDashes : List Char → List Char
  | [] => []
  | [c] => [c]
  | a :: b :: rest =>
    if a == '-' && b == '-' then collapseDashes (b :: rest)
    else a :: collapseDashes (b :: rest)

/-- Accumulator-based whitespace splitting; `cur` holds the current token
reversed. -/
def pySplitWsAux (cur : List Char) : List Char → List (List Char)
  | [] => if cur.isEmpty then [] else [cur.reverse]
  | c :: rest =>
    if pyIsSpace c then
      if cur.isEmpty then pySplitWsAux [] rest
      else cur.reverse :: pySplitWsAux [] rest
    else pySplitWsAux (c :: cur) rest

/-- Python's `str.split()` (no argument): split on whitespace runs, dropping
empty pieces. -/
def pySplitWs (l : List Char) : List (List Char) :=
  pySplitWsAux [] l

/-! ### Catalog slugging (`create_slug`, src/app.py lines 137-152) -/

/-- `re.sub(r'[^a-z0-9-]', '-', s)`'s per-character action. -/
def subSlugChar (c : Char) : Char :=
  if isSlugChar c then c else '-'

/-- The pure pipeline of `create_slug` before the collision check, applied
inside out: `s = product_name.lower().strip()`,
`s = re.sub(r'[^a-z0-9-]', '-', s)`, `s = re.sub(r'-+', '-', s).strip('-')`. -/
def slugCore (name : List Char) : List Char :=
  pyStrip (fun c => c == '-')
    (collapseDashes ((pyStrip pyIsSpace (name.map pyLowerChar)).map subSlugChar))

/-- The deterministic part of `create_slug`, including the
`if not s: s = "product"` fallback. -/
def slugBase (name : String) : String :=
  if (slugCore name.data).isEmpty then "product" else String.mk (slugCore name.data)

/-- `create_slug(product_name, existing_product_id)`.  `slugMap` is the
global `slug_to_id_map`; `suffix` stands for the four random characters
`str(uuid.uuid4())[:4]` appended on a collision with a different product. -/
def create_slug (slugMap : List (String × String)) (product_name : String)
    (existing_product_id : Option String) (suffix : String) : String :=
  let s := slugBase product_name
  match slugMap.lookup s with
  | some colliding_id =>
    if existing_product_id = some colliding_id then s
    else s ++ "-" ++ suffix
  | none => s

/-- Full-match semantics of the regex `[a-z0-9]([a-z0-9-]*[a-z0-9])?`:
non-empty, every character in `[a-z0-9-]`, and the first and last characters
in `[a-z0-9]`. -/
def matchesSlugPattern (s : String) : Bool :=
  match s.data.head?, s.data.getLast? with
  | some a, some b => isAlnumLower a && s.data.all isSlugChar && isAlnumLower b
  | _, _ => false

/-! ### Lemmas about the string primitives -/

theorem dropWhile_head?_false {p : Char → Bool} :
    ∀ {l : List Char} {c : Char}, (l.dropWhile p).head? = some c → p c = false := by
  intro l
  induction l with
  | nil => intro c h; simp [List.dropWhile] at h
  | cons a rest ih =>
    intro c h
    by_cases hpa : p a
    · rw [List.dropWhile_cons_of_pos hpa] at h
      exact ih h
    · rw [List.dropWhile_cons_of_neg hpa] at h
      simp at h
      subst h
      simpa using hpa

theorem dropWhile_eq_self_of_head {p : Char → Bool} {l : List Char}
    (h : ∀ c, l.head? = some c → p c = false) : l.dropWhile p = l := by
  cases l with
  | nil => rfl
  | cons a rest =>
    have : p a = false := h a rfl
    simp [List.dropWhile_cons, this]

theorem head?_of_prefix {r A : List Char} {c : Char} (h : r <+: A)
    (hc : r.head? = some c) : A.head? = some c := by
  obtain ⟨t, rfl⟩ := h
  cases r with
  | nil => simp at hc
  | cons a r' => simpa using hc

theorem dropEndWhile_pre (p : Char → Bool) (l : List Char) :
    dropEndWhile p l <+: l := by
  unfold dropEndWhile
  have h2 : (l.reverse.dropWhile p) <:+ l.reverse := List.dropWhile_suffix p
  have h3 : (l.reverse.dropWhile p).reverse <+: l.reverse.reverse :=
    List.reverse_prefix.mpr h2
  rwa [List.reverse_reverse] at h3

theorem pyStrip_within (p : Char → Bool) (l : List Char) :
    pyStrip p l <:+: l := by
  unfold pyStrip
  exact List.IsInfix.trans
    (List.IsPrefix.isInfix (dropEndWhile_pre p (l.dropWhile p)))
    (List.IsSuffix.isInfix (List.dropWhile_suffix p))

theorem pyStrip_head?_false {p : Char → Bool} {l : List Char} {c : Char}
    (h : (pyStrip p l).head? = some c) : p c = false := by
  unfold pyStrip at h
  have := head?_of_prefix (dropEndWhile_pre p (l.dropWhile p)) h
  exact dropWhile_head?_false this

theorem pyStrip_getLast?_false {p : Char → Bool} {l : List Char} {c : Char}
    (h : (pyStrip p l).getLast? = some c) : p c = false := by
  unfold pyStrip dropEndWhile at h
  rw [List.getLast?_reverse] at h
  exact dropWhile_head?_false h

theorem pyStrip_eq_self {p : Char → Bool} {l : List Char}
    (hhead : ∀ c, l.head? = some c → p c = false)
    (hlast : ∀ c, l.getLast? = some c → p c = false) : pyStrip p l = l := by
  unfold pyStrip dropEndWhile
  rw [dropWhile_eq_self_of_head hhead]
  rw [dropWhile_eq_self_of_head (by
    intro c hc
    rw [List.head?_reverse] at hc
    exact hlast c hc)]
  exact List.reverse_reverse l

/-- The adjacency relation "not two dashes in a row". -/
def NoDD (a b : Char) : Prop := ¬(a = '-' ∧ b = '-')

instance : DecidableRel NoDD :=
  fun a b => inferInstanceAs (Decidable ¬(a = '-' ∧ b = '-'))

theorem collapseDashes_mem {l : List Char} {c : Char}
    (h : c ∈ collapseDashes l) : c ∈ l := by
  induction l using collapseDashes.induct with
  | case1 => simp [collapseDashes] at h
  | case2 d => simpa [collapseDashes] using h
  | case3 a b rest hab ih =>
    rw [collapseDashes, if_pos hab] at h
    exact List.mem_cons_of_mem a (ih h)
  | case4 a b rest hab ih =>
    rw [collapseDashes, if_neg hab] at h
    rcases List.mem_cons.mp h with rfl | h'
    · exact List.mem_cons_self _ _
    · exact List.mem_cons_of_mem a (ih h')

theorem collapseDashes_head? :
    ∀ (x : Char) (xs : List Char),
      (collapseDashes (x :: xs)).head? = some x ∨
        (x = '-' ∧ (collapseDashes (x :: xs)).head? = some '-') := by
  intro x xs
  induction xs generalizing x with
  | nil => left; rfl
  | cons b rest ih =>
    by_cases hab : (x == '-' && b == '-') = true
    · rw [collapseDashes, if_pos hab]
      simp only [Bool.and_eq_true, beq_iff_eq] at hab
      obtain ⟨hx, hb⟩ := hab
      rcases ih b with h | ⟨_, h⟩
      · right; exact ⟨hx, by rw [h, hb]⟩
      · right; exact ⟨hx, h⟩
    · rw [collapseDashes, if_neg hab]
      left; rfl

theorem collapseDashes_chain' (l : List Char) :
    List.Chain' NoDD (collapseDashes l) := by
  induction l using collapseDashes.induct with
  | case1 => simp [collapseDashes]
  | case2 c => simp [collapseDashes]
  | case3 a b rest hab ih => rwa [collapseDashes, if_pos hab]
  | case4 a b rest hab ih =>
    rw [collapseDashes, if_neg hab]
    rw [List.chain'_cons']
    refine ⟨?_, ih⟩
    intro y hy
    simp only [Bool.and_eq_true, beq_iff_eq, not_and] at hab
    rcases collapseDashes_head? b rest with h | ⟨hb, h⟩
    · rw [h] at hy
      simp at hy
      subst hy
      intro ⟨ha, hb⟩
      exact hab ha hb
    · rw [h] at hy
      simp at hy
      subst hy
      intro ⟨ha, _⟩
      exact hab ha hb

theorem collapseDashes_eq_self {l : List Char}
    (h : List.Chain' NoDD l) : collapseDashes l = l := by
  induction l using collapseDashes.induct with
  | case1 => rfl
  | case2 c => rfl
  | case3 a b rest hab ih =>
    exfalso
    simp only [Bool.and_eq_true, beq_iff_eq] at hab
    exact (List.chain'_cons'.mp h).1 b rfl ⟨hab.1, hab.2⟩
  | case4 a b rest hab ih =>
    rw [collapseDashes, if_neg hab, ih (List.chain'_cons'.mp h).2]

/-! ### Properties of the slug pipeline -/

/-- The invariant satisfied by every finished slug: non-empty, all characters
in `[a-z0-9-]`, no leading or trailing dash, no dash run of length > 1. -/
def GoodSlug (l : List Char) : Prop :=
  l ≠ [] ∧ (∀ c ∈ l, isSlugChar c = true) ∧
    (∀ c, l.head? = some c → c ≠ '-') ∧
    (∀ c, l.getLast? = some c → c ≠ '-') ∧
    List.Chain' NoDD l

theorem slugCore_goodSlug (name : List Char) (h : slugCore name ≠ []) :
    GoodSlug (slugCore name) := by
  unfold slugCore
  set s3 := ((pyStrip pyIsSpace (name.map pyLowerChar)).map subSlugChar) with hs3
  set s4 := collapseDashes s3 with hs4
  set s5 := pyStrip (fun c => c == '-') s4 with hs5
  have hall3 : ∀ c ∈ s3, isSlugChar c = true := by
    intro c hc
    rw [hs3] at hc
    obtain ⟨a, _, rfl⟩ := List.mem_map.mp hc
    unfold subSlugChar
    split
    · assumption
    · rfl
  have hall4 : ∀ c ∈ s4, isSlugChar c = true :=
    fun c hc => hall3 c (collapseDashes_mem hc)
  have hall5 : ∀ c ∈ s5, isSlugChar c = true :=
    fun c hc => hall4 c (List.Sublist.mem hc (List.IsInfix.sublist (pyStrip_within _ s4)))
  have hchain5 : List.Chain' NoDD s5 :=
    List.Chain'.infix (collapseDashes_chain' s3) (pyStrip_within _ s4)
  refine ⟨h, hall5, ?_, ?_, hchain5⟩
  · intro c hc
    have := pyStrip_head?_false hc
    simpa using this
  · intro c hc
    have := pyStrip_getLast?_false hc
    simpa using this

theorem goodSlug_product : GoodSlug "product".data := by
  refine ⟨by decide, by decide, ?_, ?_, ?_⟩
  · intro c h
    have : c = 'p' := by
      have : ("product".data.head? = some 'p') := rfl
      rw [this] at h
      exact (Option.some_inj.mp h).symm
    subst this; decide
  · intro c h
    have : c = 't' := by
      have : ("product".data.getLast? = some 't') := rfl
      rw [this] at h
      exact (Option.some_inj.mp h).symm
    subst this; decide
  · show List.Chain' NoDD ['p', 'r', 'o', 'd', 'u', 'c', 't']
    simp only [List.chain'_cons, List.chain'_singleton, and_true]
    refine ⟨?_, ?_, ?_, ?_, ?_, ?_⟩ <;> decide

theorem isSlugChar_ranges {c : Char} (h : isSlugChar c = true) :
    (97 ≤ c.toNat ∧ c.toNat ≤ 122) ∨ (48 ≤ c.toNat ∧ c.toNat ≤ 57) ∨
      c.toNat = 45 := by
  unfold isSlugChar isAlnumLower at h
  simp only [Bool.or_eq_true, Bool.and_eq_true, decide_eq_true_eq, beq_iff_eq] at h
  rcases h with (h | h) | h
  · exact Or.inl h
  · exact Or.inr (Or.inl h)
  · subst h; exact Or.inr (Or.inr rfl)

theorem pyIsSpace_toNat {c : Char} (h : pyIsSpace c = true) :
    c.toNat = 32 ∨ c.toNat = 9 ∨ c.toNat = 10 ∨ c.toNat = 13 ∨
      c.toNat = 11 ∨ c.toNat = 12 := by
  unfold pyIsSpace at h
  simp only [Bool.or_eq_true, decide_eq_true_eq] at h
  tauto

theorem isSlugChar_not_space {c : Char} (h : isSlugChar c = true) :
    pyIsSpace c = false := by
  have hr := isSlugChar_ranges h
  by_contra hs
  rw [Bool.not_eq_false] at hs
  have := pyIsSpace_toNat hs
  omega

theorem isSlugChar_lower_fix {c : Char} (h : isSlugChar c = true) :
    pyLowerChar c = c := by
  have hr := isSlugChar_ranges h
  unfold pyLowerChar
  rw [if_neg]
  omega

theorem map_id_of_fix {f : Char → Char} {l : List Char}
    (h : ∀ c ∈ l, f c = c) : l.map f = l := by
  induction l with
  | nil => rfl
  | cons a r ih =>
    rw [List.map_cons, h a (List.mem_cons_self a r),
      ih fun c hc => h c (List.mem_cons_of_mem a hc)]

theorem mem_of_getLast? {l : List Char} {c : Char} (h : l.getLast? = some c) :
    c ∈ l := by
  rw [← List.head?_reverse] at h
  have := List.mem_of_mem_head? h
  simpa using this

theorem goodSlug_slugCore_fix {l : List Char} (h : GoodSlug l) :
    slugCore l = l := by
  obtain ⟨hne, hall, hhead, hlast, hchain⟩ := h
  unfold slugCore
  have h1 : l.map pyLowerChar = l :=
    map_id_of_fix fun c hc => isSlugChar_lower_fix (hall c hc)
  rw [h1]
  have h2 : pyStrip pyIsSpace l = l := by
    apply pyStrip_eq_self
    · intro c hc
      exact isSlugChar_not_space (hall c (List.mem_of_mem_head? hc))
    · intro c hc
      exact isSlugChar_not_space (hall c (mem_of_getLast? hc))
  rw [h2]
  have h3 : l.map subSlugChar = l := by
    apply map_id_of_fix
    intro c hc
    unfold subSlugChar
    rw [if_pos (hall c hc)]
  rw [h3]
  rw [collapseDashes_eq_self hchain]
  apply pyStrip_eq_self
  · intro c hc
    simpa using hhead c hc
  · intro c hc
    simpa using hlast c hc

theorem slugBase_goodSlug (name : String) : GoodSlug (slugBase name).data := by
  unfold slugBase
  by_cases h : (slugCore name.data).isEmpty
  · rw [if_pos h]
    exact goodSlug_product
  · rw [if_neg h]
    have : slugCore name.data ≠ [] := by
      intro hc
      rw [hc] at h
      simp at h
    exact slugCore_goodSlug name.data this

theorem slugBase_idem (name : String) :
    slugBase (slugBase name) = slugBase name := by
  have hg := slugBase_goodSlug name
  conv_lhs => rw [slugBase]
  rw [goodSlug_slugCore_fix hg]
  rw [if_neg (by
    rw [List.isEmpty_iff]
    exact hg.1)]

theorem slugBase_ne_empty (name : String) : slugBase name ≠ "" := by
  intro h
  have hg := slugBase_goodSlug name
  rw [h] at hg
  exact hg.1 rfl

theorem goodSlug_matchesSlugPattern {s : String} (h : GoodSlug s.data) :
    matchesSlugPattern s = true := by
  obtain ⟨hne, hall, hhead, hlast, _⟩ := h
  unfold matchesSlugPattern
  rcases ha : s.data.head? with _ | a
  · rw [List.head?_eq_none_iff] at ha
    exact absurd ha hne
  rcases hb : s.data.getLast? with _ | b
  · rw [List.getLast?_eq_none_iff] at hb
    exact absurd hb hne
  have hsa : isSlugChar a = true := hall a (List.mem_of_mem_head? ha)
  have hsb : isSlugChar b = true := hall b (mem_of_getLast? hb)
  have hna : a ≠ '-' := hhead a ha
  have hnb : b ≠ '-' := hlast b hb
  have hAa : isAlnumLower a = true := by
    unfold isSlugChar at hsa
    simp only [Bool.or_eq_true, beq_iff_eq] at hsa
    rcases hsa with h' | h'
    · exact h'
    · exact absurd h' hna
  have hAb : isAlnumLower b = true := by
    unfold isSlugChar at hsb
    simp only [Bool.or_eq_true, beq_iff_eq] at hsb
    rcases hsb with h' | h'
    · exact h'
    · exact absurd h' hnb
  simp only [hAa, hAb, Bool.true_and, Bool.and_true, List.all_eq_true]
  exact hall

/-! ### Data model (src/app.py, module-level dicts and the record shapes
built in `add_product` and `product_page`) -/

/-- A catalog product record, with the fields `add_product`/`edit_product`
put into the `products` dict.  Optional dict keys are `Option`; a Python
value of `None` and an absent key both embed as `none` (the code only ever
reads them through `.get`, which identifies the two). -/
structure Product where
  id : String
  slug : String
  name : String
  price : Option String := none
  status : String
  category : Option String := none
  sub_category : Option String := none
  checker_type : Option String := none
  website_link : Option String := none
  expiration_days : Option String := none
  script_filename : Option String := none
  image_filename : Option String := none
  bonus_freebies : List String := []
  description : String := ""
deriving Repr, DecidableEq

/-- An order record, as built in `product_page` and mutated by
`submit_payment`, `claim_order`, `approve_order` and `download_file`. -/
structure Order where
  id : String
  product_id : String
  product_name : String
  price : Option String := none
  payment_method : String
  status : String
  receipt_filename : Option String := none
  buyer_chat_id : Option Int := none
  buyer_username : Option String := none
  timestamp : Nat := 0
  is_proof : Bool := false
  claim_code : Option String := none
  download_token : Option String := none
deriving Repr, DecidableEq

/-- The JSON files `products.json` / `orders.json` written by `save_data`
and read back by `load_data`. -/
structure Persisted where
  products : List (String × Product) := []
  orders : List (String × Order) := []
deriving Repr, DecidableEq

/-- The process state of app.py: the module-level dicts `products`,
`orders`, `slug_to_id_map`, `claim_codes`, the JSON backing store, and the
two disk folders the claims touch (`SECURE_FILES_FOLDER` contents as
name-to-bytes, `TEMP_DOWNLOAD_FOLDER` contents as ZIP-name-to-entry-list;
a ZIP archive is embedded as its list of (entry name, entry bytes)). -/
structure ShopState where
  products : List (String × Product) := []
  orders : List (String × Order) := []
  slug_to_id_map : List (String × String) := []
  claim_codes : List (String × String) := []
  persisted : Persisted := {}
  secureFiles : List (String × String) := []
  tempDownloads : List (String × List (String × String)) := []
deriving Repr, DecidableEq

/-- The observable outcome of one Flask request handler: the HTTP response
it produces, or the unhandled Python exception that escapes it. -/
inductive Response where
  /-- `redirect(url_for(target, ...))`. -/
  | redirect (target : String)
  /-- `abort(404, ...)`. -/
  | notFound
  /-- An explicit error return such as `("Error creating ZIP file.", 500)`. -/
  | serverError (msg : String)
  /-- An uncaught Python exception propagating out of the handler
  (`NameError`, a Telegram send failure outside any `try`, ...). -/
  | exception (msg : String)
  /-- `send_from_directory(TEMP_DOWNLOAD_FOLDER, filename)`: the served ZIP
  name together with the archive entries found on disk under that name
  (`none` when the file is absent). -/
  | download (filename : String) (contents : Option (List (String × String)))
  /-- A rendered template page. -/
  | page (name : String)
deriving Repr, DecidableEq

/-! ### Association-list primitives for the Python dicts -/

/-- `d[k] = v` on a Python dict embedded as an association list: replace the
binding in place if the key is present, append it otherwise. -/
def setk {β : Type} (k : String) (v : β) : List (String × β) → List (String × β)
  | [] => [(k, v)]
  | (k', v') :: rest => if k = k' then (k, v) :: rest else (k', v') :: setk k v rest

/-- `del d[k]` (first binding). -/
def delk {β : Type} (k : String) : List (String × β) → List (String × β)
  | [] => []
  | (k', v') :: rest => if k = k' then rest else (k', v') :: delk k rest

theorem lookup_cons {β : Type} (k' k : String) (v : β) (rest : List (String × β)) :
    List.lookup k' ((k, v) :: rest) = if k' = k then some v else List.lookup k' rest := by
  by_cases h : k' = k
  · subst h
    simp [List.lookup]
  · have hb : (k' == k) = false := beq_eq_false_iff_ne.mpr h
    simp [List.lookup, hb, h]

theorem lookup_setk_self {β : Type} (k : String) (v : β) (l : List (String × β)) :
    (setk k v l).lookup k = some v := by
  induction l with
  | nil => simp [setk, lookup_cons]
  | cons p rest ih =>
    obtain ⟨k', v'⟩ := p
    by_cases h : k = k'
    · subst h
      simp [setk, lookup_cons]
    · simp only [setk, if_neg h]
      rw [lookup_cons, if_neg h]
      exact ih

theorem lookup_setk_ne {β : Type} {k k' : String} (v : β) (l : List (String × β))
    (h : k' ≠ k) : (setk k v l).lookup k' = l.lookup k' := by
  induction l with
  | nil => simp [setk, lookup_cons, h]
  | cons p rest ih =>
    obtain ⟨k'', v''⟩ := p
    by_cases h2 : k = k''
    · subst h2
      have hs : setk k v ((k, v'') :: rest) = (k, v) :: rest := by simp [setk]
      rw [hs, lookup_cons, lookup_cons, if_neg h, if_neg h]
    · simp only [setk, if_neg h2]
      rw [lookup_cons, lookup_cons]
      by_cases h3 : k' = k''
      · simp [h3]
      · rw [if_neg h3, if_neg h3]
        exact ih

theorem lookup_eq_none_of_not_mem_keys {β : Type} {k : String}
    {l : List (String × β)} (h : k ∉ l.map Prod.fst) : l.lookup k = none := by
  induction l with
  | nil => rfl
  | cons p rest ih =>
    obtain ⟨k', v'⟩ := p
    simp only [List.map_cons, List.mem_cons] at h
    push_neg at h
    rw [lookup_cons, if_neg h.1]
    exact ih h.2

theorem lookup_delk_self {β : Type} {k : String} {l : List (String × β)}
    (hnd : (l.map Prod.fst).Nodup) : (delk k l).lookup k = none := by
  induction l with
  | nil => rfl
  | cons p rest ih =>
    obtain ⟨k', v'⟩ := p
    simp only [List.map_cons, List.nodup_cons] at hnd
    by_cases h : k = k'
    · subst h
      simp only [delk, if_pos rfl]
      exact lookup_eq_none_of_not_mem_keys hnd.1
    · simp only [delk, if_neg h]
      rw [lookup_cons, if_neg h]
      exact ih hnd.2

theorem setk_setk_same {β : Type} (k : String) (v w : β) (l : List (String × β)) :
    setk k v (setk k w l) = setk k v l := by
  induction l with
  | nil => simp [setk]
  | cons p rest ih =>
    obtain ⟨k', v'⟩ := p
    by_cases h : k = k'
    · subst h
      simp [setk]
    · simp [setk, if_neg h, ih]

/-! ### Persistence (src/app.py lines 84-114) -/

/-- `save_data()`: dump `products` and `orders` to the JSON files. -/
def save_data (st : ShopState) : ShopState :=
  { st with persisted := { products := st.products, orders := st.orders } }

/-- The `claim_codes` rebuild loop of `load_data` (lines 109-111): only
orders whose status is `unpaid` or `pending` and which carry a
`claim_code` key are re-registered. -/
def buildClaimCodes (orders : List (String × Order)) : List (String × String) :=
  orders.foldl (fun m p =>
    match p.2.claim_code with
    | some cc =>
      if p.2.status = "unpaid" ∨ p.2.status = "pending" then setk cc p.1 m else m
    | none => m) []

/-- The `slug_to_id_map` rebuild loop of `load_data` (lines 103-105). -/
def buildSlugMap (products : List (String × Product)) : List (String × String) :=
  products.foldl (fun m p => setk p.2.slug p.1 m) []

/-- `load_data()` at startup: reload both dicts from the JSON files and
rebuild the two derived indexes.  The disk folders survive a restart
unchanged. -/
def load_data (p : Persisted)
    (secureFiles : List (String × String))
    (tempDownloads : List (String × List (String × String))) : ShopState :=
  { products := p.products
    orders := p.orders
    slug_to_id_map := buildSlugMap p.products
    claim_codes := buildClaimCodes p.orders
    persisted := p
    secureFiles := secureFiles
    tempDownloads := tempDownloads }

/-- A process restart: reload everything from the current backing store. -/
def restart (st : ShopState) : ShopState :=
  load_data st.persisted st.secureFiles st.tempDownloads

/-! ### Order creation (`product_page`, src/app.py lines 204-230) -/

/-- `f"CLAIM-{order_id.split('-')[0].upper()}"`: the fixed prefix plus the
uppercased first hyphen-segment of the order id. -/
def claimCodeOf (order_id : String) : String :=
  "CLAIM-" ++ String.mk ((order_id.data.takeWhile fun c => c != '-').map pyUpperChar)

/-- The POST branch of `product_page`: create an order on the product
behind `slug`.  `newOrderId` stands for the fresh `str(uuid.uuid4())` and
`now` for `time.time()`. -/
def product_page_post (slug payment_method newOrderId : String) (now : Nat)
    (st : ShopState) : ShopState × Response :=
  match st.slug_to_id_map.lookup slug with
  | none => (st, .notFound)
  | some product_id =>
    match st.products.lookup product_id with
    | none => (st, .notFound)
    | some product =>
      if product.status ≠ "available" then (st, .notFound)
      else
        let claim_code := claimCodeOf newOrderId
        let order : Order :=
          { id := newOrderId, product_id := product.id,
            product_name := product.name, price := product.price,
            payment_method := payment_method, status := "unpaid",
            receipt_filename := none, buyer_chat_id := none,
            buyer_username := none, timestamp := now, is_proof := false,
            claim_code := some claim_code, download_token := none }
        let st1 :=
          { st with
            orders := setk newOrderId order st.orders
            claim_codes := setk claim_code newOrderId st.claim_codes
            products := setk product_id { product with status := "pending" } st.products }
        (save_data st1, .redirect ("order_status/" ++ newOrderId))

/-! ### Receipt submission (`submit_payment`, src/app.py lines 246-275) -/

/-- `submit_payment(order_id)`.  `receipt` is the uploaded file's name when
one with a non-empty filename was posted.  `sendFails` is the outcome of
the Telegram notification; the code wraps the send in `try/except`, so it
influences neither the state nor the response. -/
def submit_payment (order_id : String) (receipt : Option String)
    (_botConfigured _sendFails : Bool) (st : ShopState) : ShopState × Response :=
  match st.orders.lookup order_id with
  | none => (st, .notFound)
  | some order =>
    if order.status ≠ "unpaid" then (st, .notFound)
    else
      match receipt with
      | some fname =>
        let filename := order_id ++ "_" ++ fname
        let order1 :=
          { order with
            receipt_filename := some ("static/receipts/" ++ filename)
            status := "pending" }
        let st1 := save_data { st with orders := setk order_id order1 st.orders }
        -- `bot.send_message` inside `try/except`: a failure is printed and
        -- swallowed, so `sendFails` is intentionally unused from here on.
        (st1, .redirect ("order_status/" ++ order_id))
      | none => (st, .redirect ("order_status/" ++ order_id))

/-! ### Token-gated download (`download_file`, src/app.py lines 278-296) -/

/-- `next((o for o in orders.values() if o.get('download_token') == token), None)`. -/
def findByToken (token : String) : List (String × Order) → Option Order
  | [] => none
  | (_, o) :: rest =>
    if o.download_token = some token then some o else findByToken token rest

/-- `download_file(token)`. -/
def download_file (token : String) (st : ShopState) : ShopState × Response :=
  match findByToken token st.orders with
  | none => (st, .notFound)
  | some order =>
    match st.products.lookup order.product_id with
    | none => (st, .notFound)
    | some _product =>
      let download_filename := order.id ++ ".zip"
      let st1 :=
        if order.status = "approved" then
          save_data
            { st with orders := setk order.id { order with status := "completed" } st.orders }
        else st
      (st1, .download download_filename (st1.tempDownloads.lookup download_filename))

/-! ### Delivery packaging and approval (`approve_order`,
src/app.py lines 467-529) -/

/-- The `instructions.txt` text for website-link products. -/
def websiteInstructions (product : Product) : String :=
  "Thank you for your purchase of '" ++ product.name ++ "'!\n\n" ++
    "Here is your website link:\n" ++ product.website_link.getD "N/A" ++ "\n\n" ++
    "Your access will expire in " ++ product.expiration_days.getD "N/A" ++ " day(s).\n"

/-- The `BONUS_FREEBIES.txt` text. -/
def bonusText (items : List String) : String :=
  "Your Bonuses:\n" ++ String.intercalate "\n" (items.map fun item => "- " ++ item)

/-- The entries written into the delivery ZIP (lines 483-496).  Note the
file-delivery branch: when `os.path.exists` is false the asset is silently
skipped and no exception is raised. -/
def zipEntries (product : Product) (secureFiles : List (String × String)) :
    List (String × String) :=
  let base :=
    if product.checker_type = some "website_link" then
      [("instructions.txt", websiteInstructions product)]
    else
      match product.script_filename with
      | some fname =>
        if fname = "" then []
        else
          match secureFiles.lookup fname with
          | some contents => [(fname, contents)]
          | none => []
      | none => []
  base ++
    (if product.bonus_freebies ≠ [] then
      [("BONUS_FREEBIES.txt", bonusText product.bonus_freebies)]
    else [])

/-- `approve_order(order_id)`.  `newToken` stands for the fresh
`str(uuid.uuid4())` download token; `zipFails` for an exception raised
while creating the ZIP (the `except` at line 497); `buyerSendFails` /
`adminSendFails` for the outcomes of the two Telegram sends.  Only the
admin send of the no-linked-buyer branch is outside any `try/except`. -/
def approve_order (order_id : String) (mark_as_proof : Bool) (newToken : String)
    (zipFails botConfigured _buyerSendFails adminSendFails : Bool)
    (st : ShopState) : ShopState × Response :=
  match st.orders.lookup order_id with
  | none => (st, .redirect "admin_dashboard")
  | some order =>
    if order.status ≠ "pending" then (st, .redirect "admin_dashboard")
    else
      match st.products.lookup order.product_id with
      | none => (st, .notFound)
      | some product =>
        let order1 := { order with is_proof := mark_as_proof }
        let product1 := { product with status := "available" }
        let st1 :=
          { st with
            orders := setk order_id order1 st.orders
            products := setk order.product_id product1 st.products }
        if zipFails then
          -- `except`: revert the product status, answer 500; `save_data`
          -- is never reached, the order keeps status `pending`.
          ({ st1 with
              products :=
                setk order.product_id { product1 with status := "pending" } st1.products },
            .serverError "Error creating ZIP file.")
        else
          let st2 :=
            { st1 with
              tempDownloads :=
                setk (order_id ++ ".zip") (zipEntries product1 st1.secureFiles)
                  st1.tempDownloads }
          let order2 := { order1 with status := "approved", download_token := some newToken }
          let st3 := save_data { st2 with orders := setk order_id order2 st2.orders }
          if botConfigured then
            match order2.buyer_chat_id with
            | some _ =>
              -- both sends inside `try/except`: failures are printed only.
              (st3, .redirect "admin_dashboard")
            | none =>
              if adminSendFails then
                -- line 527: `bot.send_message` with no surrounding `try`.
                (st3, .exception "telebot send_message")
              else (st3, .redirect "admin_dashboard")
          else (st3, .redirect "admin_dashboard")

/-! ### Product deletion (`delete_product`, src/app.py lines 426-465) -/

/-- `delete_product(product_id)` (file-removal side effects on the uploads
folder are not modelled; the secure-files folder is). -/
def delete_product (product_id : String) (st : ShopState) : ShopState × Response :=
  match st.products.lookup product_id with
  | none => (st, .redirect "manage_products")
  | some product =>
    let secure1 :=
      match product.script_filename with
      | some f => delk f st.secureFiles
      | none => st.secureFiles
    let slugMap1 :=
      if product.slug ≠ "" then delk product.slug st.slug_to_id_map
      else st.slug_to_id_map
    let st1 :=
      { st with
        secureFiles := secure1
        slug_to_id_map := slugMap1
        products := delk product_id st.products }
    (save_data st1, .redirect "manage_products")

/-! ### Product creation (`add_product`, src/app.py lines 326-396) -/

/-- The POST form and uploaded files of an `add_product` request.  File
uploads are embedded as `Option` filename (with `none` also covering an
empty filename, which the code treats identically) plus their relevant
contents. -/
structure AddProductRequest where
  name : String
  price : Option String := none
  category : Option String := none
  sub_category : Option String := none
  checker_type : Option String := none
  website_link : Option String := none
  expiration_days : Option String := none
  description : String := ""
  bonus_freebies : String := ""
  /-- the uploaded product image's filename, when present and non-empty. -/
  image : Option String := none
  /-- the uploaded script ZIP's filename, when present and non-empty. -/
  script : Option String := none
  /-- the uploaded script archive's bytes. -/
  scriptContent : String := ""
  /-- contents of `features.txt` inside the uploaded archive, when the
  archive is readable and has such an entry. -/
  featuresTxt : Option String := none
  /-- true when reading the uploaded archive raises (the `except` at
  line 375). -/
  zipUnreadable : Bool := false
deriving Repr, DecidableEq

/-- `[line.strip() for line in freebies_text.splitlines() if line.strip()]`. -/
def parseFreebies (text : String) : List String :=
  ((text.splitOn "\n").map fun line => String.mk (pyStrip pyIsSpace line.data)).filter
    fun line => line ≠ ""

/-- `os.path.splitext(...)[1]` for ordinary filenames: the final dot and
what follows it, `""` when there is no dot. -/
def splitextExt (s : String) : String :=
  if s.data.contains '.' then
    "." ++ String.mk ((s.data.reverse.takeWhile fun c => c != '.').reverse)
  else ""

/-- `secure_filename` (werkzeug, an external collaborator) embedded as the
identity; no claim depends on its sanitisation. -/
def secure_filename (s : String) : String := s

/-- The POST branch of `add_product`.  `newProductId` stands for the fresh
`str(uuid.uuid4())` and `suffix` for `create_slug`'s random disambiguator.
Note line 392: the handler ends by calling the undefined name `save__data`,
so every run that reaches it raises `NameError` after mutating the
in-memory dicts and never writes the backing store. -/
def add_product (req : AddProductRequest) (newProductId suffix : String)
    (st : ShopState) : ShopState × Response :=
  let name := req.name
  let slug := create_slug st.slug_to_id_map name none suffix
  let category := req.category
  let base : Product :=
    { id := newProductId, slug := slug, name := name, price := req.price,
      status := "available", category := category }
  match req.image with
  | none => (st, .redirect "add_product")
  | some img =>
    let withImage :=
      { base with
        image_filename := some ("static/uploads/" ++ newProductId ++ "_" ++ img) }
    let description0 := req.description
    let withFreebies := { withImage with bonus_freebies := parseFreebies req.bonus_freebies }
    let p1 :=
      if category = some "codm" then
        { withFreebies with sub_category := req.sub_category }
      else if category = some "web_checker" then
        if req.checker_type = some "website_link" then
          { withFreebies with
            checker_type := req.checker_type
            website_link := req.website_link
            expiration_days := req.expiration_days
            script_filename := none }
        else { withFreebies with checker_type := req.checker_type }
      else withFreebies
    let description1 :=
      if category = some "web_checker" ∧ req.checker_type = some "website_link" ∧
          description0 = "" then
        "Website Access for " ++ name ++ ".\nExpires in " ++
          (req.expiration_days.getD "None") ++ " day(s)."
      else description0
    if p1.checker_type ≠ some "website_link" then
      match req.script with
      | none => (st, .redirect "add_product")
      | some scriptName =>
        let description2 :=
          if description1 = "" then
            match req.featuresTxt with
            | some t => t
            | none => if req.zipUnreadable then "No feature list found in ZIP." else ""
          else description1
        let s_name :=
          String.mk (((secure_filename name).data.map pyLowerChar).map
            fun c => if c = '_' then '-' else c)
        let s_script_filename :=
          newProductId ++ "_" ++ s_name ++ splitextExt scriptName
        let p2 :=
          { p1 with script_filename := some s_script_filename, description := description2 }
        let st1 :=
          { st with
            secureFiles := setk s_script_filename req.scriptContent st.secureFiles
            products := setk newProductId p2 st.products
            slug_to_id_map := setk slug newProductId st.slug_to_id_map }
        -- line 392: `save__data()` — undefined name, `NameError` escapes.
        (st1, .exception "NameError: name 'save__data' is not defined")
    else
      let p2 := { p1 with description := description1 }
      let st1 :=
        { st with
          products := setk newProductId p2 st.products
          slug_to_id_map := setk slug newProductId st.slug_to_id_map }
      (st1, .exception "NameError: name 'save__data' is not defined")

/-! ### The Telegram claim flow (`claim_order`, src/bot_worker.py
lines 50-88) -/

/-- The reply the bot sends back to the chat user. -/
inductive ClaimReply where
  | formatError
  | linked (product_name : String)
  | invalidCode
deriving Repr, DecidableEq

/-- `message.text.split()[1].upper().strip()` applied to one token. -/
def normalizeClaim (tok : List Char) : String :=
  String.mk (pyStrip pyIsSpace (tok.map pyUpperChar))

/-- Mongo's `orders_collection.find_one({'claim_code': claim_code})`: the
first order document carrying that claim code, with its key. -/
def find_one_claim (code : String) : List (String × Order) → Option (String × Order)
  | [] => none
  | (k, o) :: rest =>
    if o.claim_code = some code then some (k, o) else find_one_claim code rest

/-- The `/claim <code>` handler of the bot worker.  It operates on the
orders collection alone (the worker shares no memory with app.py); the
collection is the same `orders` data `save_data` persists. -/
def claim_order (text : String) (chat_id : Int) (username : Option String)
    (orders : List (String × Order)) : List (String × Order) × ClaimReply :=
  match pySplitWs text.data with
  | _ :: tok :: _ =>
    let claim_code := normalizeClaim tok
    match find_one_claim claim_code orders with
    | some (k, order) =>
      (setk k
        { order with buyer_chat_id := some chat_id, buyer_username := username }
        orders,
        .linked order.product_name)
    | none => (orders, .invalidCode)
  | _ => (orders, .formatError)

/-! ### Helper lemmas about the operations -/

theorem findByToken_token {token : String} {l : List (String × Order)} {o : Order}
    (h : findByToken token l = some o) : o.download_token = some token := by
  induction l with
  | nil => simp [findByToken] at h
  | cons p rest ih =>
    obtain ⟨k, v⟩ := p
    by_cases hv : v.download_token = some token
    · simp only [findByToken, if_pos hv] at h
      cases h
      exact hv
    · simp only [findByToken, if_neg hv] at h
      exact ih h

theorem findByToken_setk {token oid : String} {o' : Order} {l : List (String × Order)}
    (hb : ∀ k o'', (k, o'') ∈ l → o''.download_token = some token → k = oid)
    (ht : o'.download_token = some token) :
    findByToken token (setk oid o' l) = some o' := by
  induction l with
  | nil => simp [setk, findByToken, ht]
  | cons p rest ih =>
    obtain ⟨k, v⟩ := p
    by_cases h : oid = k
    · subst h
      simp [setk, findByToken, ht]
    · simp only [setk, if_neg h]
      have hv : v.download_token ≠ some token := by
        intro hvt
        exact h (hb k v (List.mem_cons_self _ _) hvt).symm
      simp only [findByToken, if_neg hv]
      exact ih fun k' o'' hm => hb k' o'' (List.mem_cons_of_mem _ hm)

theorem find_one_claim_of_mem {code oid : String} {o : Order} {l : List (String × Order)}
    (hmem : (oid, o) ∈ l) (hcode : o.claim_code = some code)
    (huniq : ∀ k o', (k, o') ∈ l → o'.claim_code = some code → (k, o') = (oid, o)) :
    find_one_claim code l = some (oid, o) := by
  induction l with
  | nil => simp at hmem
  | cons p rest ih =>
    obtain ⟨k, v⟩ := p
    by_cases hv : v.claim_code = some code
    · have heq := huniq k v (List.mem_cons_self _ _) hv
      rw [find_one_claim, if_pos hv, heq]
    · rw [find_one_claim, if_neg hv]
      have hmem' : (oid, o) ∈ rest := by
        rcases List.mem_cons.mp hmem with h | h
        · exfalso
          apply hv
          rw [show v = o from congrArg Prod.snd h.symm]
          exact hcode
        · exact h
      exact ih hmem' fun k' o' hm hc => huniq k' o' (List.mem_cons_of_mem _ hm) hc

theorem find_one_claim_setk {code oid : String} {o' : Order} {l : List (String × Order)}
    (hb : ∀ k o'', (k, o'') ∈ l → o''.claim_code = some code → k = oid)
    (hc : o'.claim_code = some code) :
    find_one_claim code (setk oid o' l) = some (oid, o') := by
  induction l with
  | nil => simp [setk, find_one_claim, hc]
  | cons p rest ih =>
    obtain ⟨k, v⟩ := p
    by_cases h : oid = k
    · subst h
      simp [setk, find_one_claim, hc]
    · simp only [setk, if_neg h]
      have hv : v.claim_code ≠ some code := by
        intro hvt
        exact h (hb k v (List.mem_cons_self _ _) hvt).symm
      simp only [find_one_claim, if_neg hv]
      exact ih fun k' o'' hm => hb k' o'' (List.mem_cons_of_mem _ hm)

/-! ### C7: slug properties -/

/-- **C7.** For every product name, the computed slug is non-empty, matches
`[a-z0-9]([a-z0-9-]*[a-z0-9])?`, and — absent collisions in the slug map —
re-applying the slug function to a slug it produced returns it unchanged. -/
theorem C7_slug_properties (slugMap : List (String × String)) (name suffix : String)
    (existing : Option String)
    (hno : slugMap.lookup (slugBase name) = none) :
    create_slug slugMap name existing suffix ≠ "" ∧
      matchesSlugPattern (create_slug slugMap name existing suffix) = true ∧
      create_slug slugMap (create_slug slugMap name existing suffix) existing suffix =
        create_slug slugMap name existing suffix := by
  have hbase : create_slug slugMap name existing suffix = slugBase name := by
    simp only [create_slug]
    rw [hno]
  rw [hbase]
  refine ⟨slugBase_ne_empty name,
    goodSlug_matchesSlugPattern (slugBase_goodSlug name), ?_⟩
  simp only [create_slug]
  rw [slugBase_idem, hno]

/-- Witness for C7 at a concrete input. -/
theorem C7_slug_properties_witness :
    ([] : List (String × String)).lookup (slugBase "Hello World!") = none ∧
      (create_slug [] "Hello World!" none "ab12" ≠ "" ∧
        matchesSlugPattern (create_slug [] "Hello World!" none "ab12") = true ∧
        create_slug [] (create_slug [] "Hello World!" none "ab12") none "ab12" =
          create_slug [] "Hello World!" none "ab12") :=
  ⟨rfl, C7_slug_properties [] "Hello World!" "ab12" none rfl⟩

/-! ### C1: guard-state violations -/

/-- The responses the spec calls rejections: not-found and
not-allowed/error answers. -/
def isRejectionResponse : Response → Bool
  | .notFound => true
  | .serverError _ => true
  | _ => false

/-- Sample state for C1: one `approved` and one `pending` order on the
same product. -/
def prodC1 : Product :=
  { id := "p1", slug := "alpha", name := "Alpha", status := "pending" }

def ordC1approved : Order :=
  { id := "o1", product_id := "p1", product_name := "Alpha",
    payment_method := "gcash", status := "approved", download_token := some "t0" }

def ordC1pending : Order :=
  { id := "o2", product_id := "p1", product_name := "Alpha",
    payment_method := "gcash", status := "pending" }

def stC1 : ShopState :=
  { products := [("p1", prodC1)],
    orders := [("o1", ordC1approved), ("o2", ordC1pending)] }

/-- **C1 (counterexample).** Approving an already-`approved` order is not
signalled as a not-found/not-allowed rejection: the handler answers with
the same bare dashboard redirect a successful approval produces (state is
left unchanged, but the caller cannot tell rejection from success). -/
theorem C1_counterexample :
    (approve_order "o1" false "t1" false false false false stC1).1 = stC1 ∧
      isRejectionResponse
        (approve_order "o1" false "t1" false false false false stC1).2 = false ∧
      (approve_order "o1" false "t1" false false false false stC1).2 =
        (approve_order "o2" false "t2" false false false false stC1).2 := by
  decide

/-- **C1 (amended).** A transition attempt outside its guard state leaves
the order and its product unchanged; submitting a receipt when the status
is not `unpaid` is rejected with not-found, while approving when the
status is not `pending` performs no change but answers with the same
dashboard redirect as a successful approval (no distinct rejection
signal). -/
theorem C1_guard_violations (st : ShopState) (oid oid2 : String) (o o2 : Order)
    (receipt : Option String) (bc sf mark : Bool) (tok : String)
    (zf bc2 bsf asf : Bool)
    (h1 : st.orders.lookup oid = some o) (hs1 : o.status ≠ "unpaid")
    (h2 : st.orders.lookup oid2 = some o2) (hs2 : o2.status ≠ "pending") :
    submit_payment oid receipt bc sf st = (st, .notFound) ∧
      approve_order oid2 mark tok zf bc2 bsf asf st =
        (st, .redirect "admin_dashboard") := by
  constructor
  · simp only [submit_payment, h1]
    rw [if_pos hs1]
  · simp only [approve_order, h2]
    rw [if_pos hs2]

/-- Witness for C1 at a concrete input. -/
theorem C1_guard_violations_witness :
    stC1.orders.lookup "o1" = some ordC1approved ∧
      ordC1approved.status ≠ "unpaid" ∧
      ordC1approved.status ≠ "pending" ∧
      (submit_payment "o1" none false false stC1 = (stC1, .notFound) ∧
        approve_order "o1" false "t1" false false false false stC1 =
          (stC1, .redirect "admin_dashboard")) :=
  ⟨by decide, by decide, by decide,
    C1_guard_violations stC1 "o1" "o1" ordC1approved ordC1approved none false false
      false "t1" false false false false (by decide) (by decide) (by decide) (by decide)⟩

/-! ### C3: order creation -/

/-- **C3.** Creating an order on a product whose status is not `available`
is rejected with not-found and changes nothing; a successful creation sets
the product's status to `pending` (and touches no other product) and
creates the order with status `unpaid`. -/
theorem C3_order_creation (st : ShopState) (slug pm oid : String) (now : Nat)
    (pid : String) (p : Product)
    (hslug : st.slug_to_id_map.lookup slug = some pid)
    (hp : st.products.lookup pid = some p) :
    (p.status ≠ "available" →
      product_page_post slug pm oid now st = (st, .notFound)) ∧
      (p.status = "available" →
        (product_page_post slug pm oid now st).1.products.lookup pid =
            some { p with status := "pending" } ∧
          (product_page_post slug pm oid now st).1.orders.lookup oid =
            some { id := oid, product_id := p.id, product_name := p.name,
                   price := p.price, payment_method := pm, status := "unpaid",
                   receipt_filename := none, buyer_chat_id := none,
                   buyer_username := none, timestamp := now, is_proof := false,
                   claim_code := some (claimCodeOf oid), download_token := none } ∧
          (∀ pid', pid' ≠ pid →
            (product_page_post slug pm oid now st).1.products.lookup pid' =
              st.products.lookup pid') ∧
          (product_page_post slug pm oid now st).2 =
            .redirect ("order_status/" ++ oid)) := by
  constructor
  · intro hna
    simp only [product_page_post, hslug, hp]
    rw [if_pos hna]
  · intro hav
    simp only [product_page_post, hslug, hp]
    rw [if_neg (by simp [hav])]
    refine ⟨?_, ?_, ?_, rfl⟩
    · exact lookup_setk_self pid _ _
    · exact lookup_setk_self oid _ _
    · intro pid' hne
      exact lookup_setk_ne _ _ hne

/-- Witness for C3 at a concrete input. -/
def prodC3 : Product :=
  { id := "p3", slug := "gamma", name := "Gamma", price := some "5",
    status := "available" }

def stC3 : ShopState :=
  { products := [("p3", prodC3)], slug_to_id_map := [("gamma", "p3")] }

theorem C3_order_creation_witness :
    stC3.slug_to_id_map.lookup "gamma" = some "p3" ∧
      stC3.products.lookup "p3" = some prodC3 ∧
      prodC3.status = "available" ∧
      ((product_page_post "gamma" "gcash" "o3-x" 7 stC3).1.products.lookup "p3" =
          some { prodC3 with status := "pending" } ∧
        (product_page_post "gamma" "gcash" "o3-x" 7 stC3).1.orders.lookup "o3-x" =
          some { id := "o3-x", product_id := prodC3.id, product_name := prodC3.name,
                 price := prodC3.price, payment_method := "gcash", status := "unpaid",
                 receipt_filename := none, buyer_chat_id := none,
                 buyer_username := none, timestamp := 7, is_proof := false,
                 claim_code := some (claimCodeOf "o3-x"), download_token := none } ∧
        (∀ pid', pid' ≠ "p3" →
          (product_page_post "gamma" "gcash" "o3-x" 7 stC3).1.products.lookup pid' =
            stC3.products.lookup pid') ∧
        (product_page_post "gamma" "gcash" "o3-x" 7 stC3).2 =
          .redirect ("order_status/" ++ "o3-x")) :=
  ⟨by decide, by decide, by decide,
    (C3_order_creation stC3 "gamma" "gcash" "o3-x" 7 "p3" prodC3
      (by decide) (by decide)).2 (by decide)⟩

/-! ### C4: idempotent re-download -/

/-- Unfolding of `download_file` once the order and product lookups are
known. -/
theorem download_file_eq (token : String) (st : ShopState) {o : Order} {p : Product}
    (h1 : findByToken token st.orders = some o)
    (hp : st.products.lookup o.product_id = some p) :
    download_file token st =
      if o.status = "approved" then
        (save_data
            { st with
              orders := setk o.id { o with status := "completed" } st.orders },
          .download (o.id ++ ".zip") (st.tempDownloads.lookup (o.id ++ ".zip")))
      else (st, .download (o.id ++ ".zip") (st.tempDownloads.lookup (o.id ++ ".zip"))) := by
  simp only [download_file, h1, hp]
  split
  · rfl
  · rfl

/-- **C4.** Fetching the bundle with a valid token transitions an
`approved` order to `completed` and serves the order's ZIP; fetching again
with the same token succeeds with the very same response (same bytes) and
changes nothing (the second fetch is a no-op on the state). -/
theorem C4_refetch_idempotent (st : ShopState) (token : String) (o : Order)
    (p : Product)
    (h1 : findByToken token st.orders = some o)
    (hst : o.status = "approved")
    (hp : st.products.lookup o.product_id = some p)
    (hb : ∀ k o', (k, o') ∈ st.orders → o'.download_token = some token → k = o.id) :
    ((download_file token st).1.orders.lookup o.id =
        some { o with status := "completed" }) ∧
      (download_file token st).2 =
        .download (o.id ++ ".zip") (st.tempDownloads.lookup (o.id ++ ".zip")) ∧
      download_file token (download_file token st).1 =
        ((download_file token st).1, (download_file token st).2) := by
  have htok : o.download_token = some token := findByToken_token h1
  have hres : download_file token st =
      (save_data
          { st with
            orders := setk o.id { o with status := "completed" } st.orders },
        .download (o.id ++ ".zip") (st.tempDownloads.lookup (o.id ++ ".zip"))) := by
    rw [download_file_eq token st h1 hp, if_pos hst]
  rw [hres]
  have h1' : findByToken token
      (save_data
        { st with
          orders := setk o.id { o with status := "completed" } st.orders }).orders =
      some { o with status := "completed" } :=
    findByToken_setk hb htok
  have hp' : (save_data
      { st with
        orders := setk o.id { o with status := "completed" } st.orders }).products.lookup
      ({ o with status := "completed" } : Order).product_id = some p := hp
  refine ⟨lookup_setk_self o.id _ _, rfl, ?_⟩
  have hsC : ({ o with status := "completed" } : Order).status = "completed" := rfl
  rw [download_file_eq token _ h1' hp', if_neg (by rw [hsC]; decide)]
  rfl

/-- Witness for C4 at a concrete input. -/
def prodC4 : Product :=
  { id := "p4", slug := "delta", name := "Delta", status := "available" }

def ordC4 : Order :=
  { id := "o4", product_id := "p4", product_name := "Delta",
    payment_method := "gcash", status := "approved",
    download_token := some "tok4" }

def stC4 : ShopState :=
  { products := [("p4", prodC4)], orders := [("o4", ordC4)],
    tempDownloads := [("o4.zip", [("payload.txt", "bytes")])] }

theorem C4_refetch_idempotent_witness :
    findByToken "tok4" stC4.orders = some ordC4 ∧
      ordC4.status = "approved" ∧
      stC4.products.lookup ordC4.product_id = some prodC4 ∧
      (((download_file "tok4" stC4).1.orders.lookup ordC4.id =
          some { ordC4 with status := "completed" }) ∧
        (download_file "tok4" stC4).2 =
          .download (ordC4.id ++ ".zip")
            (stC4.tempDownloads.lookup (ordC4.id ++ ".zip")) ∧
        download_file "tok4" (download_file "tok4" stC4).1 =
          ((download_file "tok4" stC4).1, (download_file "tok4" stC4).2)) :=
  ⟨by decide, by decide, by decide,
    C4_refetch_idempotent stC4 "tok4" ordC4 prodC4 (by decide) (by decide)
      (by decide)
      (by
        intro k o' hm ht
        have he : stC4.orders = [("o4", ordC4)] := rfl
        rw [he, List.mem_singleton] at hm
        exact congrArg Prod.fst hm)⟩

/-! ### C10: download after product deletion -/

/-- **C10.** A download request whose token matches an order whose product
has been deleted from the catalog is rejected as not-found with no state
change: in particular an `approved` order does not transition to
`completed`. -/
theorem C10_download_deleted_product (st : ShopState) (pid token : String)
    (p : Product) (o : Order)
    (hp : st.products.lookup pid = some p)
    (hnodup : (st.products.map Prod.fst).Nodup)
    (ho : findByToken token st.orders = some o)
    (hpid : o.product_id = pid) :
    download_file token (delete_product pid st).1 =
      ((delete_product pid st).1, .notFound) := by
  have hdel : (delete_product pid st).1 =
      save_data
        { st with
          secureFiles :=
            match p.script_filename with
            | some f => delk f st.secureFiles
            | none => st.secureFiles
          slug_to_id_map :=
            if p.slug ≠ "" then delk p.slug st.slug_to_id_map
            else st.slug_to_id_map
          products := delk pid st.products } := by
    simp only [delete_product, hp]
  rw [hdel]
  have ho' : findByToken token
      (save_data
        { st with
          secureFiles :=
            match p.script_filename with
            | some f => delk f st.secureFiles
            | none => st.secureFiles
          slug_to_id_map :=
            if p.slug ≠ "" then delk p.slug st.slug_to_id_map
            else st.slug_to_id_map
          products := delk pid st.products }).orders = some o := ho
  have hpnone : (save_data
      { st with
        secureFiles :=
          match p.script_filename with
          | some f => delk f st.secureFiles
          | none => st.secureFiles
        slug_to_id_map :=
          if p.slug ≠ "" then delk p.slug st.slug_to_id_map
          else st.slug_to_id_map
        products := delk pid st.products }).products.lookup o.product_id = none := by
    show (delk pid st.products).lookup o.product_id = none
    rw [hpid]
    exact lookup_delk_self hnodup
  simp only [download_file, ho', hpnone]

/-- Witness for C10 at a concrete input. -/
def prodC10 : Product :=
  { id := "p10", slug := "eps", name := "Eps", status := "available" }

def ordC10 : Order :=
  { id := "o10", product_id := "p10", product_name := "Eps",
    payment_method := "gcash", status := "approved",
    download_token := some "tok10" }

def stC10 : ShopState :=
  { products := [("p10", prodC10)], orders := [("o10", ordC10)],
    slug_to_id_map := [("eps", "p10")] }

theorem C10_download_deleted_product_witness :
    stC10.products.lookup "p10" = some prodC10 ∧
      (stC10.products.map Prod.fst).Nodup ∧
      findByToken "tok10" stC10.orders = some ordC10 ∧
      ordC10.product_id = "p10" ∧
      download_file "tok10" (delete_product "p10" stC10).1 =
        ((delete_product "p10" stC10).1, .notFound) :=
  ⟨by decide, by decide, by decide, by decide,
    C10_download_deleted_product stC10 "p10" "tok10" prodC10 ordC10
      (by decide) (by decide) (by decide) (by decide)⟩

/-! ### C2: approval with a missing backing asset -/

/-- Sample state for C2: a file-delivery product whose backing asset is
absent from the secure-files folder, with a `pending` order on it. -/
def prodC2 : Product :=
  { id := "p2", slug := "beta", name := "Beta", status := "pending",
    script_filename := some "p2_beta.zip" }

def ordC2 : Order :=
  { id := "o2c", product_id := "p2", product_name := "Beta",
    payment_method := "gcash", status := "pending" }

def stC2 : ShopState :=
  { products := [("p2", prodC2)], orders := [("o2c", ordC2)],
    secureFiles := [] }

/-- **C2 (code behaviour at the failing input).** Approving a `pending`
order for a file-delivery product whose backing asset cannot be located
does NOT fail loudly: the `os.path.exists` guard silently skips the asset,
the order becomes `approved`, a download token is minted, the product is
flipped to `available`, and an empty bundle is packaged and left ready for
delivery — contradicting the spec's required failure mode. -/
theorem C2_missing_asset_silent_success :
    ((approve_order "o2c" false "tokC2" false false false false stC2).1.orders.lookup
        "o2c").map Order.status = some "approved" ∧
      ((approve_order "o2c" false "tokC2" false false false false stC2).1.orders.lookup
          "o2c").bind Order.download_token = some "tokC2" ∧
      ((approve_order "o2c" false "tokC2" false false false false stC2).1.products.lookup
          "p2").map Product.status = some "available" ∧
      (approve_order "o2c" false "tokC2" false false false false stC2).1.tempDownloads.lookup
          "o2c.zip" = some [] ∧
      (approve_order "o2c" false "tokC2" false false false false stC2).2 =
        .redirect "admin_dashboard" := by
  decide

/-! ### C6: notification-channel failures -/

/-- Sample state for C6: a `pending` order whose buyer has not linked a
chat identity. -/
def prodC6 : Product :=
  { id := "p6", slug := "zeta", name := "Zeta", status := "pending" }

def ordC6 : Order :=
  { id := "o6", product_id := "p6", product_name := "Zeta",
    payment_method := "gcash", status := "pending", buyer_chat_id := none }

def stC6 : ShopState :=
  { products := [("p6", prodC6)], orders := [("o6", ordC6)] }

/-- **C6 (code behaviour at the failing input).** A notification failure
never rolls back the state transition (the resulting state is identical
whether or not the send succeeds, and receipt submission is entirely
independent of the send outcome), but in the approve branch for an order
with no linked buyer chat the admin send is outside any `try/except`, so
its failure escapes the handler as an unhandled exception instead of the
normal redirect — contradicting "never propagated past the notification
call site". -/
theorem C6_unguarded_admin_send :
    (approve_order "o6" false "tok6" false true false true stC6).1 =
        (approve_order "o6" false "tok6" false true false false stC6).1 ∧
      (approve_order "o6" false "tok6" false true false true stC6).2 =
        .exception "telebot send_message" ∧
      (approve_order "o6" false "tok6" false true false false stC6).2 =
        .redirect "admin_dashboard" ∧
      ((approve_order "o6" false "tok6" false true false true stC6).1.orders.lookup
          "o6").map Order.status = some "approved" ∧
      (∀ oid receipt b1 s1 b2 s2 st,
        submit_payment oid receipt b1 s1 st = submit_payment oid receipt b2 s2 st) :=
  ⟨by decide, by decide, by decide, by decide, fun _ _ _ _ _ _ _ => rfl⟩

/-! ### C9: add_product raises NameError -/

/-- The input-validation conditions of `add_product`: a product image is
required always, and a script file is required unless the product is a
website-link web checker. -/
def addValidationOk (req : AddProductRequest) : Prop :=
  req.image.isSome = true ∧
    ((req.category = some "web_checker" ∧ req.checker_type = some "website_link") ∨
      req.script.isSome = true)

/-- **C9.** Every `add_product` request that passes input validation
inserts the new product into the in-memory catalog and slug index and then
raises `NameError` (the handler calls the undefined name `save__data`), so
the backing store is never written and the operation never completes
successfully. -/
theorem C9_add_product_name_error (req : AddProductRequest) (pid suf : String)
    (st : ShopState) (h : addValidationOk req) :
    (add_product req pid suf st).2 =
        .exception "NameError: name 'save__data' is not defined" ∧
      ((add_product req pid suf st).1.products.lookup pid).isSome = true ∧
      (add_product req pid suf st).1.slug_to_id_map.lookup
          (create_slug st.slug_to_id_map req.name none suf) = some pid ∧
      (add_product req pid suf st).1.persisted = st.persisted := by
  obtain ⟨himg, hscript⟩ := h
  rcases hi : req.image with _ | img
  · rw [hi] at himg
    simp at himg
  by_cases hwl : req.category = some "web_checker" ∧ req.checker_type = some "website_link"
  · obtain ⟨hc, ht⟩ := hwl
    simp [add_product, hi, hc, ht, lookup_setk_self]
  · have hs : req.script.isSome = true := by
      rcases hscript with h' | h'
      · exact absurd h' hwl
      · exact h'
    rcases hsc : req.script with _ | scr
    · rw [hsc] at hs
      simp at hs
    by_cases hc1 : req.category = some "codm"
    · simp [add_product, hi, hsc, hc1, lookup_setk_self]
    · by_cases hc2 : req.category = some "web_checker"
      · have ht : req.checker_type ≠ some "website_link" := by
          intro h'
          exact hwl ⟨hc2, h'⟩
        simp [add_product, hi, hsc, hc1, hc2, ht, lookup_setk_self]
      · simp [add_product, hi, hsc, hc1, hc2, lookup_setk_self]

/-- Witness for C9 at a concrete input. -/
def reqC9 : AddProductRequest :=
  { name := "New Tool", price := some "3", category := some "tools",
    image := some "img.png", script := some "tool.zip",
    scriptContent := "bytes" }

theorem C9_add_product_name_error_witness :
    addValidationOk reqC9 ∧
      ((add_product reqC9 "p9" "ab12" {}).2 =
          .exception "NameError: name 'save__data' is not defined" ∧
        ((add_product reqC9 "p9" "ab12" {}).1.products.lookup "p9").isSome = true ∧
        (add_product reqC9 "p9" "ab12" {}).1.slug_to_id_map.lookup
            (create_slug ({} : ShopState).slug_to_id_map reqC9.name none "ab12") =
          some "p9" ∧
        (add_product reqC9 "p9" "ab12" {}).1.persisted = ({} : ShopState).persisted) :=
  ⟨⟨by decide, Or.inr (by decide)⟩,
    C9_add_product_name_error reqC9 "p9" "ab12" {} ⟨by decide, Or.inr (by decide)⟩⟩

/-! ### Claim-code parsing lemmas (C5, C8) -/

/-- Characters of a UUID-style order id, by code point: lowercase hex
digits (`0`-`9`, `a`-`f`) and dashes. -/
def HexDashId (oid : String) : Prop :=
  ∀ c ∈ oid.data,
    (48 ≤ c.toNat ∧ c.toNat ≤ 57) ∨ (97 ≤ c.toNat ∧ c.toNat ≤ 102) ∨ c = '-'

instance : DecidablePred HexDashId := fun oid =>
  inferInstanceAs (Decidable (∀ c ∈ oid.data,
    (48 ≤ c.toNat ∧ c.toNat ≤ 57) ∨ (97 ≤ c.toNat ∧ c.toNat ≤ 102) ∨ c = '-'))

theorem toNat_ofNat_valid {m : Nat} (h : m < 55296) : (Char.ofNat m).toNat = m := by
  unfold Char.ofNat
  rw [dif_pos (Or.inl h)]
  rfl

theorem claimCode_chars {oid : String} (hhex : HexDashId oid) :
    ∀ c ∈ (claimCodeOf oid).data, pyUpperChar c = c ∧ pyIsSpace c = false := by
  intro c hc
  have hdata : (claimCodeOf oid).data =
      ['C', 'L', 'A', 'I', 'M', '-'] ++
        ((oid.data.takeWhile fun c => c != '-').map pyUpperChar) := by
    show ("CLAIM-" ++
      String.mk ((oid.data.takeWhile fun c => c != '-').map pyUpperChar)).data = _
    rw [String.data_append]
  rw [hdata] at hc
  rcases List.mem_append.mp hc with h | h
  · fin_cases h <;> exact ⟨by decide, by decide⟩
  · obtain ⟨a, ha, rfl⟩ := List.mem_map.mp h
    have hmem : a ∈ oid.data := (List.takeWhile_prefix _).sublist.mem ha
    have hnd : a ≠ '-' := by
      have := List.mem_takeWhile_imp ha
      simpa using this
    have hhexa : (48 ≤ a.toNat ∧ a.toNat ≤ 57) ∨ (97 ≤ a.toNat ∧ a.toNat ≤ 102) := by
      rcases hhex a hmem with h' | h' | h'
      · exact Or.inl h'
      · exact Or.inr h'
      · exact absurd h' hnd
    rcases hhexa with ⟨h1, h2⟩ | ⟨h1, h2⟩
    · have hfix : pyUpperChar a = a := by
        unfold pyUpperChar
        rw [if_neg (by omega)]
      constructor
      · rw [hfix, hfix]
      · rw [hfix]
        by_contra hs
        rw [Bool.not_eq_false] at hs
        have := pyIsSpace_toNat hs
        omega
    · have hup : pyUpperChar a = Char.ofNat (a.toNat - 32) := by
        unfold pyUpperChar
        rw [if_pos (by omega)]
      have ht : (Char.ofNat (a.toNat - 32)).toNat = a.toNat - 32 :=
        toNat_ofNat_valid (by omega)
      constructor
      · rw [hup]
        unfold pyUpperChar
        rw [if_neg (by rw [ht]; omega)]
      · rw [hup]
        by_contra hs
        rw [Bool.not_eq_false] at hs
        have := pyIsSpace_toNat hs
        rw [ht] at this
        omega

theorem normalizeClaim_claimCode {oid : String} (hhex : HexDashId oid) :
    normalizeClaim (claimCodeOf oid).data = claimCodeOf oid := by
  have hch := claimCode_chars hhex
  unfold normalizeClaim
  rw [map_id_of_fix fun c hc => (hch c hc).1]
  rw [pyStrip_eq_self (fun c hc => (hch c (List.mem_of_mem_head? hc)).2)
    (fun c hc => (hch c (mem_of_getLast? hc)).2)]

theorem claimCode_data_ne_nil (oid : String) : (claimCodeOf oid).data ≠ [] := by
  show ("CLAIM-" ++
    String.mk ((oid.data.takeWhile fun c => c != '-').map pyUpperChar)).data ≠ []
  rw [String.data_append]
  simp

theorem pySplitWsAux_no_space (l : List Char) :
    ∀ cur, (∀ c ∈ l, pyIsSpace c = false) →
      pySplitWsAux cur l =
        if (cur.reverse ++ l).isEmpty then [] else [cur.reverse ++ l] := by
  induction l with
  | nil =>
    intro cur _
    simp [pySplitWsAux]
  | cons c rest ih =>
    intro cur h
    have hc : pyIsSpace c = false := h c (List.mem_cons_self _ _)
    rw [pySplitWsAux, hc]
    simp only [Bool.false_eq_true, if_false]
    rw [ih (c :: cur) fun d hd => h d (List.mem_cons_of_mem _ hd)]
    simp [List.append_assoc]

/-- Splitting `"/claim " + code` for a whitespace-free, non-empty code
yields exactly the command token and the code. -/
theorem pySplitWs_claim_text (code : String) (hne : code.data ≠ [])
    (hns : ∀ c ∈ code.data, pyIsSpace c = false) :
    pySplitWs ("/claim " ++ code).data = ["/claim".data, code.data] := by
  have hd : ("/claim " ++ code).data =
      '/' :: 'c' :: 'l' :: 'a' :: 'i' :: 'm' :: ' ' :: code.data := by
    rw [String.data_append]
    rfl
  have hstep : pySplitWs ("/claim " ++ code).data =
      "/claim".data :: pySplitWsAux [] code.data := by
    rw [pySplitWs, hd]
    rfl
  rw [hstep, pySplitWsAux_no_space code.data [] hns]
  rw [if_neg (by simpa using hne)]
  rfl

/-- Unfolding of `claim_order` for a well-formed `/claim` message whose
code resolves. -/
theorem claim_order_eq (code : String) (chat_id : Int) (username : Option String)
    (orders : List (String × Order))
    (hne : code.data ≠ [])
    (hns : ∀ c ∈ code.data, pyIsSpace c = false) :
    claim_order ("/claim " ++ code) chat_id username orders =
      match find_one_claim (normalizeClaim code.data) orders with
      | some (k, order) =>
        (setk k
          { order with buyer_chat_id := some chat_id, buyer_username := username }
          orders,
          .linked order.product_name)
      | none => (orders, .invalidCode) := by
  rw [claim_order, pySplitWs_claim_text code hne hns]

theorem find_one_claim_none {code : String} {l : List (String × Order)}
    (h : ∀ k o, (k, o) ∈ l → o.claim_code ≠ some code) :
    find_one_claim code l = none := by
  induction l with
  | nil => rfl
  | cons p rest ih =>
    obtain ⟨k, v⟩ := p
    rw [find_one_claim, if_neg (h k v (List.mem_cons_self _ _))]
    exact ih fun k' o' hm => h k' o' (List.mem_cons_of_mem _ hm)

/-! ### C5: claim-code registration and resolution -/

/-- **C5.** For every created order the registered claim code is
deterministically `CLAIM-` plus the uppercased first hyphen-segment of the
order id; resolving that code through the bot yields exactly the order
that generated it (updating its buyer identity), and resolving a code no
order carries is rejected as invalid with no state change. -/
theorem C5_claim_code_roundtrip (st : ShopState) (slug pm oid : String)
    (now : Nat) (pid : String) (p : Product) (chat : Int)
    (uname : Option String)
    (hslug : st.slug_to_id_map.lookup slug = some pid)
    (hp : st.products.lookup pid = some p)
    (hav : p.status = "available")
    (hhex : HexDashId oid)
    (hfresh : ∀ k o, (k, o) ∈ st.orders → o.claim_code ≠ some (claimCodeOf oid)) :
    ((product_page_post slug pm oid now st).1.orders.lookup oid).map
        Order.claim_code =
      some (some ("CLAIM-" ++
        String.mk ((oid.data.takeWhile fun c => c != '-').map pyUpperChar))) ∧
      (product_page_post slug pm oid now st).1.claim_codes.lookup
        (claimCodeOf oid) = some oid ∧
      (claim_order ("/claim " ++ claimCodeOf oid) chat uname
          (product_page_post slug pm oid now st).1.orders).2 = .linked p.name ∧
      (claim_order ("/claim " ++ claimCodeOf oid) chat uname
          (product_page_post slug pm oid now st).1.orders).1.lookup oid =
        some { id := oid, product_id := p.id, product_name := p.name,
               price := p.price, payment_method := pm, status := "unpaid",
               receipt_filename := none, buyer_chat_id := some chat,
               buyer_username := uname, timestamp := now, is_proof := false,
               claim_code := some (claimCodeOf oid), download_token := none } ∧
      (∀ code : String, code.data ≠ [] →
        (∀ ch ∈ code.data, pyIsSpace ch = false) →
        (∀ k o, (k, o) ∈ (product_page_post slug pm oid now st).1.orders →
          o.claim_code ≠ some (normalizeClaim code.data)) →
        claim_order ("/claim " ++ code) chat uname
            (product_page_post slug pm oid now st).1.orders =
          ((product_page_post slug pm oid now st).1.orders, .invalidCode)) := by
  have hres : product_page_post slug pm oid now st =
      (save_data
          { st with
            orders := setk oid
              { id := oid, product_id := p.id, product_name := p.name,
                price := p.price, payment_method := pm, status := "unpaid",
                receipt_filename := none, buyer_chat_id := none,
                buyer_username := none, timestamp := now, is_proof := false,
                claim_code := some (claimCodeOf oid), download_token := none }
              st.orders
            claim_codes := setk (claimCodeOf oid) oid st.claim_codes
            products := setk pid { p with status := "pending" } st.products },
        .redirect ("order_status/" ++ oid)) := by
    simp only [product_page_post, hslug, hp]
    rw [if_neg (by simp [hav])]
  rw [hres]
  dsimp only [save_data]
  have hb : ∀ k o'', (k, o'') ∈ st.orders →
      o''.claim_code = some (claimCodeOf oid) → k = oid :=
    fun k o'' hm hc => absurd hc (hfresh k o'' hm)
  refine ⟨?_, ?_, ?_, ?_, ?_⟩
  · rw [lookup_setk_self]
    rfl
  · rw [lookup_setk_self]
  · rw [claim_order_eq _ chat uname _ (claimCode_data_ne_nil oid)
      (fun c hc => (claimCode_chars hhex c hc).2),
      normalizeClaim_claimCode hhex, find_one_claim_setk hb rfl]
  · rw [claim_order_eq _ chat uname _ (claimCode_data_ne_nil oid)
      (fun c hc => (claimCode_chars hhex c hc).2),
      normalizeClaim_claimCode hhex, find_one_claim_setk hb rfl]
    exact lookup_setk_self _ _ _
  · intro code hne hns hnone
    rw [claim_order_eq code chat uname _ hne hns,
      find_one_claim_none hnone]

/-- Witness for C5 at a concrete input. -/
def prodC5 : Product :=
  { id := "p5", slug := "eta", name := "Eta", price := some "2",
    status := "available" }

def stC5 : ShopState :=
  { products := [("p5", prodC5)], slug_to_id_map := [("eta", "p5")] }

theorem C5_claim_code_roundtrip_witness :
    ((product_page_post "eta" "gcash" "ab12-cd34" 3 stC5).1.orders.lookup
        "ab12-cd34").map Order.claim_code =
      some (some ("CLAIM-" ++
        String.mk (("ab12-cd34".data.takeWhile fun c => c != '-').map
          pyUpperChar))) ∧
      (product_page_post "eta" "gcash" "ab12-cd34" 3 stC5).1.claim_codes.lookup
        (claimCodeOf "ab12-cd34") = some "ab12-cd34" ∧
      (claim_order ("/claim " ++ claimCodeOf "ab12-cd34") 99 (some "bob")
          (product_page_post "eta" "gcash" "ab12-cd34" 3 stC5).1.orders).2 =
        .linked prodC5.name ∧
      (claim_order ("/claim " ++ claimCodeOf "ab12-cd34") 99 (some "bob")
          (product_page_post "eta" "gcash" "ab12-cd34" 3 stC5).1.orders).1.lookup
          "ab12-cd34" =
        some { id := "ab12-cd34", product_id := prodC5.id,
               product_name := prodC5.name, price := prodC5.price,
               payment_method := "gcash", status := "unpaid",
               receipt_filename := none, buyer_chat_id := some 99,
               buyer_username := some "bob", timestamp := 3, is_proof := false,
               claim_code := some (claimCodeOf "ab12-cd34"),
               download_token := none } ∧
      (∀ code : String, code.data ≠ [] →
        (∀ ch ∈ code.data, pyIsSpace ch = false) →
        (∀ k o, (k, o) ∈ (product_page_post "eta" "gcash" "ab12-cd34" 3 stC5).1.orders →
          o.claim_code ≠ some (normalizeClaim code.data)) →
        claim_order ("/claim " ++ code) 99 (some "bob")
            (product_page_post "eta" "gcash" "ab12-cd34" 3 stC5).1.orders =
          ((product_page_post "eta" "gcash" "ab12-cd34" 3 stC5).1.orders,
            .invalidCode)) :=
  C5_claim_code_roundtrip stC5 "eta" "gcash" "ab12-cd34" 3 "p5" prodC5 99
    (some "bob") (by decide) (by decide) (by decide) (by decide)
    (by
      intro k o hm
      have he : stC5.orders = [] := rfl
      rw [he] at hm
      exact absurd hm (List.not_mem_nil _))

/-! ### C8: claim codes live as long as their order -/

/-- **C8.** A claim code stays resolvable for the whole lifetime of its
order — with no condition on the order's status (so also `approved` and
`completed`) and across a restart (`load_data` reload of the stores, which
passes every order document through unchanged) — and a repeated successful
resolve only overwrites the buyer-chat-identity and buyer-display-name
fields of that one order: every other field, every other order and the
whole product store are untouched, and the second resolve is an exact
no-op on the state. -/
theorem C8_claim_code_lifetime (p : Persisted)
    (sf : List (String × String))
    (tf : List (String × List (String × String)))
    (oid c : String) (o : Order) (chat : Int) (uname : Option String)
    (hmem : (oid, o) ∈ p.orders)
    (hcode : o.claim_code = some c)
    (hne : c.data ≠ [])
    (hns : ∀ ch ∈ c.data, pyIsSpace ch = false)
    (hfix : normalizeClaim c.data = c)
    (huniq : ∀ k o', (k, o') ∈ p.orders → o'.claim_code = some c →
      (k, o') = (oid, o)) :
    (load_data p sf tf).orders = p.orders ∧
      (load_data p sf tf).products = p.products ∧
      (claim_order ("/claim " ++ c) chat uname (load_data p sf tf).orders).2 =
        .linked o.product_name ∧
      (claim_order ("/claim " ++ c) chat uname
          (load_data p sf tf).orders).1.lookup oid =
        some { o with buyer_chat_id := some chat, buyer_username := uname } ∧
      (∀ k, k ≠ oid →
        (claim_order ("/claim " ++ c) chat uname
            (load_data p sf tf).orders).1.lookup k = p.orders.lookup k) ∧
      claim_order ("/claim " ++ c) chat uname
          (claim_order ("/claim " ++ c) chat uname (load_data p sf tf).orders).1 =
        ((claim_order ("/claim " ++ c) chat uname (load_data p sf tf).orders).1,
          .linked o.product_name) := by
  have hord : (load_data p sf tf).orders = p.orders := rfl
  rw [hord]
  have hfind : find_one_claim c p.orders = some (oid, o) :=
    find_one_claim_of_mem hmem hcode huniq
  have hco : claim_order ("/claim " ++ c) chat uname p.orders =
      (setk oid { o with buyer_chat_id := some chat, buyer_username := uname }
          p.orders,
        .linked o.product_name) := by
    rw [claim_order_eq c chat uname p.orders hne hns, hfix, hfind]
  rw [hco]
  have hb : ∀ k o'', (k, o'') ∈ p.orders → o''.claim_code = some c → k = oid :=
    fun k o'' hm hc => congrArg Prod.fst (huniq k o'' hm hc)
  refine ⟨rfl, rfl, rfl, lookup_setk_self _ _ _,
    fun k hk => lookup_setk_ne _ _ hk, ?_⟩
  rw [claim_order_eq c chat uname _ hne hns, hfix]
  dsimp only
  rw [@find_one_claim_setk c oid
    { o with buyer_chat_id := some chat, buyer_username := uname } p.orders hb hcode]
  dsimp only
  rw [setk_setk_same]

/-- Witness for C8 at a concrete input: a `completed` order. -/
def ordC8 : Order :=
  { id := "o8", product_id := "p8", product_name := "Theta",
    payment_method := "gcash", status := "completed",
    claim_code := some "CLAIM-AB12", download_token := some "t8" }

def persC8 : Persisted :=
  { products := [], orders := [("o8", ordC8)] }

theorem C8_claim_code_lifetime_witness :
    (load_data persC8 [] []).orders = persC8.orders ∧
      (load_data persC8 [] []).products = persC8.products ∧
      (claim_order ("/claim " ++ "CLAIM-AB12") 7 (some "amy")
          (load_data persC8 [] []).orders).2 = .linked ordC8.product_name ∧
      (claim_order ("/claim " ++ "CLAIM-AB12") 7 (some "amy")
          (load_data persC8 [] []).orders).1.lookup "o8" =
        some { ordC8 with buyer_chat_id := some 7, buyer_username := some "amy" } ∧
      (∀ k, k ≠ "o8" →
        (claim_order ("/claim " ++ "CLAIM-AB12") 7 (some "amy")
            (load_data persC8 [] []).orders).1.lookup k =
          persC8.orders.lookup k) ∧
      claim_order ("/claim " ++ "CLAIM-AB12") 7 (some "amy")
          (claim_order ("/claim " ++ "CLAIM-AB12") 7 (some "amy")
            (load_data persC8 [] []).orders).1 =
        ((claim_order ("/claim " ++ "CLAIM-AB12") 7 (some "amy")
            (load_data persC8 [] []).orders).1,
          .linked ordC8.product_name) :=
  C8_claim_code_lifetime persC8 [] [] "o8" "CLAIM-AB12" ordC8 7 (some "amy")
    (by decide) (by decide) (by decide) (by decide) (by decide)
    (by
      intro k o' hm h'
      have he : persC8.orders = [("o8", ordC8)] := rfl
      rw [he, List.mem_singleton] at hm
      exact hm)

end KenshiShop
